import Mathlib

/-!
Shallow embedding of the Crontal RFQ backend (`backend/server.js`).

JavaScript strings are modelled as `List Char`, JSON values as the inductive
`JsVal`, and the two module-level registries (`rfqStore`, `quoteStore`) as
association lists inside `ServerState`.  Each HTTP handler becomes a pure
function from the current state plus the request data (and, where the handler
calls the external OpenAI collaborator, a function standing for that
collaborator) to the next state and the HTTP response.  `Date.now()` is an
explicit `now : Nat` argument (milliseconds).
-/

namespace Crontal

/-- JavaScript strings, modelled as lists of characters. -/
abbrev Str := List Char

/-- Embed a Lean string literal as a JavaScript string value. -/
def str (s : String) : Str := s.data

/-- JavaScript truthiness of a possibly-absent string value:
`undefined`/`null` and the empty string are falsy. -/
def strTruthy : Option Str → Bool
  | none => false
  | some s => !s.isEmpty

/-- JavaScript `a || b` on two possibly-absent string values. -/
def jsOrStr (a b : Option Str) : Option Str :=
  if strTruthy a then a else b

/-- JavaScript `a || d` where `d` is a (truthy) string literal default. -/
def jsOrD (a : Option Str) (d : Str) : Str :=
  if strTruthy a then a.getD d else d

/-- Whitespace test used by `String.prototype.trim` (common whitespace
characters; the full JS set also has exotic Unicode spaces, which no claim
depends on). -/
def isSpaceChar (c : Char) : Bool :=
  c == ' ' || c == '\t' || c == '\n' || c == '\r'

/-- JavaScript `s.trim()`: strip whitespace from both ends. -/
def trim (s : Str) : Str :=
  ((s.dropWhile isSpaceChar).reverse.dropWhile isSpaceChar).reverse

/-- JSON values (request/response bodies and opaque payloads). -/
inductive JsVal where
  | null
  | bool (b : Bool)
  | num (n : Int)
  | string (s : Str)
  | arr (xs : List JsVal)
  | obj (fields : List (Str × JsVal))

/-- JavaScript truthiness of a JSON value (objects and arrays are always
truthy, including `{}` and `[]`). -/
def truthy : JsVal → Bool
  | .null => false
  | .bool b => b
  | .num n => n != 0
  | .string s => !s.isEmpty
  | .arr _ => true
  | .obj _ => true

/-- `typeof v === "object"` for a JSON value: true exactly for `null`,
arrays and objects. -/
def typeofIsObject : JsVal → Bool
  | .null => true
  | .arr _ => true
  | .obj _ => true
  | _ => false

/-- A non-null object in the JavaScript sense: an object or an array. -/
def isObjectLike : JsVal → Bool
  | .arr _ => true
  | .obj _ => true
  | _ => false

/-- The RFQ record built by the two normalization handlers
(`{ rfq_id, project_name, line_items, original_text }`). -/
structure Rfq where
  rfq_id : Str
  project_name : Str
  line_items : JsVal
  original_text : Str

/-- The module-level mutable registries `rfqStore` and `quoteStore`,
modelled as association lists with first-match lookup. -/
structure ServerState where
  rfqStore : List (Str × Rfq)
  quoteStore : List (Str × List JsVal)

/-- Property assignment `store[k] = v`: cons in front; with first-match
lookup this gives JavaScript override semantics. -/
def setRfq (st : ServerState) (k : Str) (v : Rfq) : ServerState :=
  { st with rfqStore := (k, v) :: st.rfqStore }

/-- Property assignment `quoteStore[k] = v`. -/
def setQuotes (st : ServerState) (k : Str) (v : List JsVal) : ServerState :=
  { st with quoteStore := (k, v) :: st.quoteStore }

/-- The JSON responses the modelled handlers produce, with their HTTP
status codes made explicit (`res.json` alone is status 200). -/
inductive Response where
  | jsonRfq (status : Nat) (rfq : Rfq)
  | jsonQuotes (status : Nat) (quotes : List JsVal)
  | jsonOk (status : Nat)
  | jsonMessage (status : Nat) (message : Str)
  | jsonError (status : Nat) (error : Str) (detail : Option Str)

/-- HTTP status code of a response. -/
def Response.status : Response → Nat
  | .jsonRfq s _ => s
  | .jsonQuotes s _ => s
  | .jsonOk s => s
  | .jsonMessage s _ => s
  | .jsonError s _ _ => s

/-- The RFQ body of a response, when the response is an RFQ. -/
def Response.rfq? : Response → Option Rfq
  | .jsonRfq _ r => some r
  | _ => none

/-- Decimal rendering of a natural number, as JavaScript string conversion
produces for the integer `Date.now()` value. -/
def natToStr (n : Nat) : Str :=
  if n = 0 then str "0" else (Nat.digits 10 n).reverse.map Nat.digitChar

/-- `"RFQ-" + Date.now()` (server.js lines 271 and 451). -/
def genId (now : Nat) : Str := str "RFQ-" ++ natToStr now

/-- What the collaborator's JSON answer provides once `JSON.parse` succeeds:
the two properties the handlers read.  `project_name` is `string|null` per
the prompt schema; `line_items` is kept opaque because the handlers
re-check its shape themselves. -/
structure ParsedOut where
  project_name : Option Str
  line_items : Option JsVal

/-- The collaborator boundary for the two normalization paths: from the user
prompt (the fixed system prompt is a constant and is elided) to either the
parsed JSON object or the error thrown by the API call or by `JSON.parse`. -/
abbrev NormCollab := Str → Except Str ParsedOut

/-- `const MAX_CHARS = 12000` (server.js line 124). -/
def MAX_CHARS : Nat := 12000

/-- The `truncated` intermediate of `parseSpecsToLineItems`
(server.js lines 125-128). -/
def truncatedText (combinedText : Str) : Str :=
  if combinedText.length > MAX_CHARS
  then combinedText.take MAX_CHARS ++ str "\n\n[TRUNCATED]"
  else combinedText

/-- The user prompt of `parseSpecsToLineItems` (server.js lines 173-183). -/
def specsUserPrompt (combinedText : Str) (project_name : Option Str) : Str :=
  str "\nBelow are one or more files from a project specification package\n(engineering PDFs and Excel tech specs).\n\nPlease extract a clean list of line_items that a buyer would need to source from suppliers.\n\nProvided project_name (may be null): "
    ++ jsOrD project_name (str "null")
    ++ str "\n\nTEXT STARTS:\n\"\"\""
    ++ truncatedText combinedText
    ++ str "\"\"\"\n"

/-- `parseSpecsToLineItems(combinedText, project_name)` up to the
collaborator boundary (server.js lines 123-195). -/
def parseSpecsToLineItems (collab : NormCollab) (combinedText : Str)
    (project_name : Option Str) : Except Str ParsedOut :=
  collab (specsUserPrompt combinedText project_name)

/-- The user prompt of the `/api/buyer/parse-request` handler
(server.js lines 247-254); it interpolates `text` directly. -/
def parseRequestUserPrompt (text : Str) (project_name : Option Str) : Str :=
  str "\nBuyer RFQ text:\n\"\"\""
    ++ text
    ++ str "\"\"\"\n\nProvided project_name (may be null): "
    ++ jsOrD project_name (str "null")
    ++ str "\n\nExtract line_items and commercial terms.\n"

/-- `parsed.project_name || project_name || "Untitled RFQ"` — the identical
expression appears in both normalization handlers (server.js lines 268-269
and 445-446). -/
def finalProjectName (extracted hint : Option Str) : Str :=
  jsOrD (jsOrStr extracted hint) (str "Untitled RFQ")

/-- `parsed.line_items || []` (server.js line 276). -/
def lineItemsOrEmpty (v : Option JsVal) : JsVal :=
  match v with
  | some x => if truthy x then x else .arr []
  | none => .arr []

/-- `Array.isArray(parsed.line_items) ? parsed.line_items : []`
(server.js lines 447-449). -/
def lineItemsIfArray (v : Option JsVal) : JsVal :=
  match v with
  | some (.arr xs) => .arr xs
  | _ => .arr []

/-- The `/api/buyer/parse-request` handler (server.js lines 200-287):
`text`/`project_name` are the request body fields (absent or present),
`now` is the `Date.now()` observation, `collab` the OpenAI call.  The
`!text` guard rejects an absent or empty text with 400; a collaborator or
parse error yields 500; otherwise the RFQ is built, stored, and returned. -/
def parseRequestHandler (st : ServerState) (now : Nat) (text : Option Str)
    (project_name : Option Str) (collab : NormCollab) : ServerState × Response :=
  match text with
  | none => (st, .jsonError 400 (str "Missing text") none)
  | some t =>
    if t.isEmpty then (st, .jsonError 400 (str "Missing text") none)
    else
      match collab (parseRequestUserPrompt t project_name) with
      | .error e => (st, .jsonError 500 (str "Parsing failed") (some e))
      | .ok parsed =>
        let rfqId := genId now
        let rfq : Rfq :=
          { rfq_id := rfqId
            project_name := finalProjectName parsed.project_name project_name
            line_items := lineItemsOrEmpty parsed.line_items
            original_text := t }
        (setRfq st rfqId rfq, .jsonRfq 200 rfq)

/-- One uploaded file as the upload-specs handler sees it: its
`originalname` and the outcome of `extractTextFromFile` on it (`.error`
models the extraction helper throwing; file-system reads are external
input to the model). -/
structure UploadFile where
  originalname : Str
  extract : Except Str Str

/-- The `texts` accumulation loop of `/api/buyer/upload-specs`
(server.js lines 407-424): every file is processed; a thrown extraction
error is caught and logged, and a text is kept only when `text && text.trim()`
is truthy. -/
def extractedTexts (files : List UploadFile) : List Str :=
  files.filterMap fun f =>
    match f.extract with
    | .ok t => if (trim t).isEmpty then none else some t
    | .error _ => none

/-- The synthesized fallback text when no file yielded usable text
(server.js lines 429-437): one line per uploaded file, joined with `"\n"`. -/
def fallbackText (files : List UploadFile) : Str :=
  List.intercalate (str "\n")
    (files.map fun f =>
      str "FILE: " ++ f.originalname
        ++ str " (no readable content extracted; likely scanned or unsupported format)")

/-- The `combinedText` passed to `parseSpecsToLineItems`
(server.js lines 426-442): the kept texts, or the fallback batch when none,
joined with the file-separator marker. -/
def combinedTextOf (files : List UploadFile) : Str :=
  let texts0 := extractedTexts files
  let texts := if texts0.isEmpty then [fallbackText files] else texts0
  List.intercalate (str "\n\n----- FILE SEPARATOR -----\n\n") texts

/-- The tail of the upload-specs handler after `combinedText` is assembled
(server.js lines 444-468): normalize, build the RFQ, store it, respond. -/
def normalizeAndStore (st : ServerState) (now : Nat) (combinedText : Str)
    (project_name : Option Str) (collab : NormCollab) : ServerState × Response :=
  match parseSpecsToLineItems collab combinedText project_name with
  | .error e => (st, .jsonError 500 (str "Parsing failed") (some e))
  | .ok parsed =>
    let rfqId := genId now
    let rfq : Rfq :=
      { rfq_id := rfqId
        project_name := finalProjectName parsed.project_name project_name
        line_items := lineItemsIfArray parsed.line_items
        original_text := combinedText }
    (setRfq st rfqId rfq, .jsonRfq 200 rfq)

/-- The `/api/buyer/upload-specs` handler (server.js lines 395-470). -/
def uploadSpecsHandler (st : ServerState) (now : Nat) (files : List UploadFile)
    (project_name : Option Str) (collab : NormCollab) : ServerState × Response :=
  if files.isEmpty then (st, .jsonError 400 (str "No files uploaded.") none)
  else normalizeAndStore st now (combinedTextOf files) project_name collab

/-- `GET /api/rfqs/:id` (server.js lines 541-546). -/
def getRfqHandler (st : ServerState) (id : Str) : ServerState × Response :=
  match st.rfqStore.lookup id with
  | none => (st, .jsonError 404 (str "RFQ not found") none)
  | some rfq => (st, .jsonRfq 200 rfq)

/-- `POST /api/rfqs/:id/quotes` (server.js lines 549-562): 404 when the RFQ
is unknown; 400 when the body is falsy or not of `typeof "object"`;
otherwise the quote is pushed onto the per-RFQ list (created on first use)
and `{ok:true}` is returned. -/
def submitQuoteHandler (st : ServerState) (id : Str) (body : Option JsVal) :
    ServerState × Response :=
  match st.rfqStore.lookup id with
  | none => (st, .jsonError 404 (str "RFQ not found") none)
  | some _ =>
    match body with
    | none => (st, .jsonError 400 (str "Invalid quote payload") none)
    | some quote =>
      if !truthy quote || !typeofIsObject quote then
        (st, .jsonError 400 (str "Invalid quote payload") none)
      else
        (setQuotes st id (((st.quoteStore.lookup id).getD []) ++ [quote]),
         .jsonOk 200)

/-- `GET /api/rfqs/:id/quotes` (server.js lines 565-569):
`quoteStore[id] || []`, always status 200; the RFQ store is not consulted. -/
def listQuotesHandler (st : ServerState) (id : Str) : ServerState × Response :=
  (st, .jsonQuotes 200 ((st.quoteStore.lookup id).getD []))

/-- A line item as the clarify/negotiate request bodies may carry it: every
field the two handlers read, each possibly absent (the two historical field
namings both appear). `line` and `quantity` are opaque JSON values; the
free-text fields are strings. -/
structure LineItemIn where
  line : Option JsVal
  description : Option Str
  product_type : Option Str
  raw_description : Option Str
  grade : Option Str
  material_grade : Option Str
  quantity : Option JsVal
  uom : Option Str
  unit : Option Str

/-- An RFQ as the clarify/negotiate request bodies may carry it: every field
those two handlers read. -/
structure RfqIn where
  id : Option Str
  rfq_id : Option Str
  project_name : Option Str
  commercial : Option JsVal
  items : Option (List LineItemIn)
  line_items : Option (List LineItemIn)

/-- `rfq.items || rfq.line_items || []` (server.js line 324): arrays are
truthy even when empty, so a present `items` always wins. -/
def itemsOrLineItems (rfq : RfqIn) : List LineItemIn :=
  match rfq.items with
  | some l => l
  | none =>
    match rfq.line_items with
    | some l => l
    | none => []

/-- One entry of the clarify summary's `line_items` (server.js lines 330-336). -/
structure ClarifySummaryItem where
  line : Option JsVal
  description : Option Str
  grade : Option Str
  quantity : Option JsVal
  uom : Option Str

/-- The `rfqSummary` object the clarify handler serializes and sends as
ground truth (server.js lines 325-340). -/
structure ClarifySummary where
  rfq_id : Option Str
  project_name : Option Str
  commercial : Option JsVal
  line_items : List ClarifySummaryItem

/-- Build the clarify summary from the inbound RFQ (server.js lines 324-340). -/
def clarifySummary (rfq : RfqIn) : ClarifySummary :=
  { rfq_id := jsOrStr rfq.id rfq.rfq_id
    project_name := rfq.project_name
    commercial := rfq.commercial
    line_items := (itemsOrLineItems rfq).map fun li =>
      { line := li.line
        description := jsOrStr (jsOrStr li.description li.product_type) li.raw_description
        grade := jsOrStr li.grade li.material_grade
        quantity := li.quantity
        uom := jsOrStr li.uom li.unit } }

/-- One entry of the inbound `history` array (fields read at
server.js lines 343-346). -/
structure HistMsg where
  role : Option Str
  content : Option Str

/-- A chat turn after the handler's role normalization. -/
inductive ChatRole where
  | assistant
  | user
deriving DecidableEq

/-- A replayed history turn as sent to the collaborator. -/
structure ChatMsg where
  role : ChatRole
  content : Str

/-- `Array.isArray(history) ? history.map(...) : []`
(server.js lines 342-347): any role other than `"assistant"` becomes
`"user"`, and `m.content || ""` supplies the content. -/
def historyMessages (history : Option (List HistMsg)) : List ChatMsg :=
  match history with
  | some hs => hs.map fun m =>
      { role := if m.role = some (str "assistant") then ChatRole.assistant else ChatRole.user
        content := jsOrD m.content (str "") }
  | none => []

/-- The clarify collaborator boundary: it receives the RFQ summary, the
replayed history, and either the latest buyer message (when `user_message`
is truthy, sent with the fixed "may clarify destination, dates, payment"
instruction) or `none` (the fixed "just suggest next refinements"
instruction); it returns the possibly-null completion content or the
thrown error.  The constant prompt wrappers are elided. -/
abbrev ClarifyCollab :=
  ClarifySummary → List ChatMsg → Option Str → Except Str (Option Str)

/-- The fixed default assistant message (server.js line 381). -/
def clarifyDefaultMessage : Str :=
  str "I’ve interpreted your RFQ and populated the table. Let me know what delivery location, dates, and payment terms you want so I can tighten it further."

/-- The `/api/buyer/clarify` handler (server.js lines 292-390).  It reads
only its request body and the collaborator's answer; it never touches
`rfqStore` or `quoteStore`, so the state is passed through unchanged on
every path. -/
def clarifyHandler (st : ServerState) (rfq : Option RfqIn)
    (history : Option (List HistMsg)) (user_message : Option Str)
    (collab : ClarifyCollab) : ServerState × Response :=
  match rfq with
  | none => (st, .jsonError 400 (str "Missing rfq in request body") none)
  | some r =>
    let latestUser := jsOrD user_message (str "")
    match collab (clarifySummary r) (historyMessages history)
        (if latestUser.isEmpty then none else some latestUser) with
    | .error e => (st, .jsonError 500 (str "Clarify failed") (some e))
    | .ok content =>
      (st, .jsonMessage 200 (jsOrD (content.map trim) clarifyDefaultMessage))

/-- One entry of the negotiation context's `items` (server.js lines 503-509):
the five fields are read directly, with no fallback to the canonical
`raw_description`/`material_grade`/`unit` namings. -/
structure CtxItem where
  line : Option JsVal
  description : Option Str
  grade : Option Str
  quantity : Option JsVal
  uom : Option Str

/-- The `context` object the negotiate handler serializes and sends to the
collaborator (server.js lines 499-512). -/
structure NegotiationContext where
  id : Option Str
  commercial : Option JsVal
  items : List CtxItem
  quote : JsVal

/-- Build the negotiation context (server.js lines 499-512): note
`(rfq.items || []).map(...)` — only the `items` field is read, never
`line_items`, and the quote is included verbatim. -/
def negotiateContext (rfq : RfqIn) (quote : JsVal) : NegotiationContext :=
  { id := jsOrStr rfq.id rfq.rfq_id
    commercial := rfq.commercial
    items := (rfq.items.getD []).map fun it =>
      { line := it.line
        description := it.description
        grade := it.grade
        quantity := it.quantity
        uom := it.uom }
    quote := quote }

/-- Modelled from the spec: the project-name precedence rule of section 4.2
("extracted name → caller-supplied hint → fixed placeholder"), where a name
is present when it is supplied and non-empty.  This is the spec-side
definition that claim C7 compares with the source-side `finalProjectName`. -/
def specProjectName (extracted hint : Option Str) : Str :=
  match extracted with
  | some e =>
    if e.isEmpty then
      match hint with
      | some h => if h.isEmpty then str "Untitled RFQ" else h
      | none => str "Untitled RFQ"
    else e
  | none =>
    match hint with
    | some h => if h.isEmpty then str "Untitled RFQ" else h
    | none => str "Untitled RFQ"

/-- Decimal digit value of a character (inverse of `Nat.digitChar` on
`'0'..'9'`), used to show the id rendering is injective. -/
def charToDigit (c : Char) : Nat := c.toNat - 48

/-- Read a decimal rendering back as a number (left inverse of `natToStr`). -/
def decodeNatStr (s : Str) : Nat :=
  Nat.ofDigits 10 ((s.map charToDigit).reverse)

/-- A concrete stored RFQ used by witness instantiations. -/
def rfq0 : Rfq :=
  { rfq_id := str "R"
    project_name := str "P"
    line_items := .arr []
    original_text := str "t" }

/-- A concrete collaborator answer used by witness instantiations: the
call succeeds and the returned JSON has `project_name: null` and no
`line_items`. -/
def stubCollab : NormCollab := fun _ => .ok ⟨none, none⟩

/-- A concrete collaborator answer whose JSON carries an extracted project
name, used by witness instantiations. -/
def stubCollabNamed : NormCollab := fun _ => .ok ⟨some (str "Proj"), none⟩

/-- A concrete canonical-shaped line item (fields under the Normalizer's
namings `raw_description`/`material_grade`/`unit`, nothing under the
legacy namings), used by the C5 theorems. -/
def exItem : LineItemIn :=
  { line := none
    description := none
    product_type := some (str "pipe")
    raw_description := some (str "2 inch SS316 pipe")
    grade := none
    material_grade := some (str "SS316")
    quantity := some (.num 20)
    uom := none
    unit := some (str "pcs") }

/-- A concrete inbound RFQ in the canonical shape the Normalizer produces:
one line item under `line_items` and no legacy `items` field. -/
def exRfqIn : RfqIn :=
  { id := none
    rfq_id := some (str "RFQ-1")
    project_name := some (str "P")
    commercial := none
    items := none
    line_items := some [exItem] }

section Helpers

theorem charToDigit_digitChar : ∀ d, d < 10 → charToDigit (Nat.digitChar d) = d := by
  decide

theorem decode_natToStr (n : Nat) : decodeNatStr (natToStr n) = n := by
  unfold natToStr
  split
  · next h => subst h; decide
  · next h =>
    unfold decodeNatStr
    rw [List.map_map]
    have hmap : (Nat.digits 10 n).reverse.map (charToDigit ∘ Nat.digitChar)
        = (Nat.digits 10 n).reverse.map id := by
      apply List.map_congr_left
      intro d hd
      have hlt : d < 10 := Nat.digits_lt_base (by norm_num) (List.mem_reverse.mp hd)
      simpa using charToDigit_digitChar d hlt
    rw [hmap, List.map_id, List.reverse_reverse, Nat.ofDigits_digits]

theorem genId_inj {t1 t2 : Nat} (h : genId t1 = genId t2) : t1 = t2 := by
  have h2 : natToStr t1 = natToStr t2 := List.append_cancel_left h
  have h3 := congrArg decodeNatStr h2
  rwa [decode_natToStr, decode_natToStr] at h3

theorem lookup_setRfq (st : ServerState) (k : Str) (v : Rfq) :
    (setRfq st k v).rfqStore.lookup k = some v := by
  simp [setRfq, List.lookup]

theorem lookup_setQuotes (st : ServerState) (k : Str) (v : List JsVal) :
    (setQuotes st k v).quoteStore.lookup k = some v := by
  simp [setQuotes, List.lookup]

theorem getRfq_after_set (st : ServerState) (k : Str) (v : Rfq)
    (hk : v.rfq_id = k) :
    getRfqHandler (setRfq st k v) v.rfq_id = (setRfq st k v, .jsonRfq 200 v) := by
  rw [hk]
  unfold getRfqHandler
  rw [lookup_setRfq]

theorem finalProjectName_eq_spec (e h : Option Str) :
    finalProjectName e h = specProjectName e h := by
  cases e with
  | none =>
    cases h with
    | none => rfl
    | some hs =>
      by_cases hh : hs.isEmpty <;>
        simp [finalProjectName, specProjectName, jsOrD, jsOrStr, strTruthy, hh]
  | some es =>
    by_cases he : es.isEmpty
    · cases h with
      | none =>
        simp [finalProjectName, specProjectName, jsOrD, jsOrStr, strTruthy, he]
      | some hs =>
        by_cases hh : hs.isEmpty <;>
          simp [finalProjectName, specProjectName, jsOrD, jsOrStr, strTruthy, he, hh]
    · simp [finalProjectName, specProjectName, jsOrD, jsOrStr, strTruthy, he]

theorem intercalate_singleton (sep x : Str) : List.intercalate sep [x] = x := by
  simp [List.intercalate]

theorem parseRequest_rfqId (st : ServerState) (now : Nat) (t : Str)
    (pn : Option Str) (collab : NormCollab) (r : Rfq)
    (h : (parseRequestHandler st now (some t) pn collab).2.rfq? = some r) :
    r.rfq_id = genId now := by
  by_cases ht : t.isEmpty = true
  · simp [parseRequestHandler, ht, Response.rfq?] at h
  · cases hc : collab (parseRequestUserPrompt t pn) with
    | error e => simp [parseRequestHandler, ht, hc, Response.rfq?] at h
    | ok parsed =>
      simp only [parseRequestHandler, ht, hc, if_false, Bool.false_eq_true,
        if_neg, Response.rfq?, Option.some.injEq] at h
      subst h
      rfl

end Helpers

/-- Claim C3, counterexample.  With an empty server state the id `"X"` names
no RFQ, yet `GET /api/rfqs/:id/quotes` answers `{quotes: []}` with status
200 — not the 404 the claim requires for unknown ids. -/
theorem C3_counterexample :
    (ServerState.mk [] []).rfqStore.lookup (str "X") = none ∧
    listQuotesHandler ⟨[], []⟩ (str "X") = (⟨[], []⟩, .jsonQuotes 200 []) ∧
    (listQuotesHandler ⟨[], []⟩ (str "X")).2.status ≠ 404 := by
  refine ⟨rfl, rfl, by decide⟩

/-- Claim C3, amended.  `GET rfqs/:id/quotes` never consults the RFQ store
and never fails: it leaves the state unchanged, always answers with status
200, returns `{quotes: []}` whenever the ledger has no entry for the id
(whether the id names an RFQ with zero quotes or no RFQ at all), and
returns the stored list otherwise. -/
theorem C3_quotes_always_ok : ∀ (st : ServerState) (id : Str),
    (listQuotesHandler st id).1 = st ∧
    (listQuotesHandler st id).2.status = 200 ∧
    (st.quoteStore.lookup id = none →
      (listQuotesHandler st id).2 = .jsonQuotes 200 []) ∧
    ∀ qs, st.quoteStore.lookup id = some qs →
      (listQuotesHandler st id).2 = .jsonQuotes 200 qs := by
  intro st id
  refine ⟨rfl, rfl, fun h => ?_, fun qs h => ?_⟩
  · simp [listQuotesHandler, h]
  · simp [listQuotesHandler, h]

/-- Witness for C3: a concrete empty-ledger call answers `{quotes: []}`. -/
theorem C3_quotes_always_ok_witness :
    (listQuotesHandler ⟨[], []⟩ (str "Y")).2 = .jsonQuotes 200 [] :=
  (C3_quotes_always_ok ⟨[], []⟩ (str "Y")).2.2.1 rfl

/-- Claim C4.  The clarify handler is pure with respect to shared state: for
every inbound RFQ, history and latest message, and whichever way the
collaborator call turns out (success, empty answer, or thrown error), the
returned state — RFQ store and quote ledger alike — is exactly the input
state: the handler performs no writes. -/
theorem C4_clarify_pure :
    ∀ (st : ServerState) (rfq : Option RfqIn) (history : Option (List HistMsg))
      (user_message : Option Str) (collab : ClarifyCollab),
      (clarifyHandler st rfq history user_message collab).1 = st := by
  intro st rfq history um collab
  unfold clarifyHandler
  rcases rfq with _ | r
  · rfl
  · dsimp only
    split <;> rfl

/-- Claim C8.  For an id naming an existing RFQ, submitting a structured
quote appends it at the end of the per-id ledger list (created on first
use), leaves the RFQ store untouched, and answers `{ok:true}`; two
sequential submissions yield the old list extended by the two quotes in
submission order with every earlier entry unchanged; for an id naming no
RFQ, the handler answers 404 and the whole state is unchanged. -/
theorem C8_ledger_append :
    (∀ (st : ServerState) (id : Str) (q : JsVal),
        (st.rfqStore.lookup id).isSome = true → isObjectLike q = true →
        (submitQuoteHandler st id (some q)).1.quoteStore.lookup id
            = some (((st.quoteStore.lookup id).getD []) ++ [q]) ∧
        (submitQuoteHandler st id (some q)).1.rfqStore = st.rfqStore ∧
        (submitQuoteHandler st id (some q)).2 = .jsonOk 200) ∧
    (∀ (st : ServerState) (id : Str) (q1 q2 : JsVal),
        (st.rfqStore.lookup id).isSome = true →
        isObjectLike q1 = true → isObjectLike q2 = true →
        (submitQuoteHandler (submitQuoteHandler st id (some q1)).1 id
            (some q2)).1.quoteStore.lookup id
          = some (((st.quoteStore.lookup id).getD []) ++ [q1, q2])) ∧
    (∀ (st : ServerState) (id : Str) (body : Option JsVal),
        st.rfqStore.lookup id = none →
        submitQuoteHandler st id body = (st, .jsonError 404 (str "RFQ not found") none)) := by
  have base : ∀ (st : ServerState) (id : Str) (q : JsVal),
      (st.rfqStore.lookup id).isSome = true → isObjectLike q = true →
      submitQuoteHandler st id (some q)
        = (setQuotes st id (((st.quoteStore.lookup id).getD []) ++ [q]), .jsonOk 200) := by
    intro st id q hr hq
    obtain ⟨r, hr'⟩ := Option.isSome_iff_exists.mp hr
    unfold submitQuoteHandler
    rw [hr']
    cases q <;> simp_all [isObjectLike, truthy, typeofIsObject]
  refine ⟨?_, ?_, ?_⟩
  · intro st id q hr hq
    rw [base st id q hr hq]
    exact ⟨lookup_setQuotes st id _, rfl, rfl⟩
  · intro st id q1 q2 hr h1 h2
    rw [base st id q1 hr h1]
    have hr2 : ((setQuotes st id (((st.quoteStore.lookup id).getD []) ++ [q1])).rfqStore.lookup id).isSome = true := hr
    rw [base _ id q2 hr2 h2, lookup_setQuotes, lookup_setQuotes]
    simp
  · intro st id body h
    unfold submitQuoteHandler
    rw [h]

/-- Witness for C8: on a state holding one RFQ `"R"` with an empty ledger,
submitting `{}` and then `[]` sequentially yields the two-element ledger in
submission order. -/
theorem C8_ledger_append_witness :
    (submitQuoteHandler
        (submitQuoteHandler ⟨[(str "R", rfq0)], []⟩ (str "R") (some (.obj []))).1
        (str "R") (some (.arr []))).1.quoteStore.lookup (str "R")
      = some [JsVal.obj [], JsVal.arr []] :=
  C8_ledger_append.2.1 ⟨[(str "R", rfq0)], []⟩ (str "R") (.obj []) (.arr []) rfl rfl rfl

/-- Claim C10.  Given an id naming an existing RFQ, the payload check of
`POST /api/rfqs/:id/quotes` accepts exactly the non-null objects in the
JavaScript sense — objects and arrays, including `{}` and `[]` — appending
the payload and answering `{ok:true}`; a missing body, `null`, or any
primitive body is rejected with the 400 "Invalid quote payload" error and
the state is unchanged. -/
theorem C10_payload_check : ∀ (st : ServerState) (id : Str),
    (st.rfqStore.lookup id).isSome = true →
    (∀ q : JsVal, isObjectLike q = true →
        submitQuoteHandler st id (some q)
          = (setQuotes st id (((st.quoteStore.lookup id).getD []) ++ [q]), .jsonOk 200)) ∧
    (∀ q : JsVal, isObjectLike q = false →
        submitQuoteHandler st id (some q)
          = (st, .jsonError 400 (str "Invalid quote payload") none)) ∧
    submitQuoteHandler st id none
      = (st, .jsonError 400 (str "Invalid quote payload") none) := by
  intro st id hr
  obtain ⟨r, hr'⟩ := Option.isSome_iff_exists.mp hr
  refine ⟨?_, ?_, ?_⟩
  · intro q hq
    unfold submitQuoteHandler
    rw [hr']
    cases q <;> simp_all [isObjectLike, truthy, typeofIsObject]
  · intro q hq
    unfold submitQuoteHandler
    rw [hr']
    cases q <;> simp_all [isObjectLike, truthy, typeofIsObject]
  · unfold submitQuoteHandler
    rw [hr']

/-- Witness for C10: with RFQ `"R"` stored, the empty object is accepted and
appended while a number is rejected with the 400 error. -/
theorem C10_payload_check_witness :
    submitQuoteHandler ⟨[(str "R", rfq0)], []⟩ (str "R") (some (.obj []))
      = (setQuotes ⟨[(str "R", rfq0)], []⟩ (str "R") [JsVal.obj []], .jsonOk 200) ∧
    submitQuoteHandler ⟨[(str "R", rfq0)], []⟩ (str "R") (some (.num 5))
      = (⟨[(str "R", rfq0)], []⟩, .jsonError 400 (str "Invalid quote payload") none) :=
  ⟨(C10_payload_check ⟨[(str "R", rfq0)], []⟩ (str "R") rfl).1 (.obj []) rfl,
   (C10_payload_check ⟨[(str "R", rfq0)], []⟩ (str "R") rfl).2.1 (.num 5) rfl⟩

/-- Claim C5, counterexample.  `exRfqIn` carries one line item — under the
canonical `line_items` naming the Normalizer produces and the clarify path
reads — yet the context the negotiate handler builds for it contains no
per-item entries at all: none of that item's description, grade, quantity
or unit of measure reaches the collaborator. -/
theorem C5_counterexample :
    (itemsOrLineItems exRfqIn).length = 1 ∧
    (negotiateContext exRfqIn (.obj [])).items = [] :=
  ⟨rfl, rfl⟩

/-- Claim C5, amended.  The negotiation context carries the quote verbatim,
the RFQ id (`id` falling back to `rfq_id`) and the commercial terms; its
per-item entries come only from the rfq's legacy `items` field — one entry
per element, copying that element's line/description/grade/quantity/uom
fields directly, with no fallback to the canonical
`raw_description`/`material_grade`/`unit` namings — and the `line_items`
field is never read: when `items` is absent the context has no item
entries even if `line_items` is populated. -/
theorem C5_context_contract :
    (∀ (rfq : RfqIn) (q : JsVal) (li : Option (List LineItemIn)),
        negotiateContext { rfq with line_items := li } q = negotiateContext rfq q) ∧
    (∀ (rfq : RfqIn) (q : JsVal),
        (negotiateContext rfq q).quote = q ∧
        (negotiateContext rfq q).id = jsOrStr rfq.id rfq.rfq_id ∧
        (negotiateContext rfq q).commercial = rfq.commercial) ∧
    (∀ (rfq : RfqIn) (q : JsVal), rfq.items = none →
        (negotiateContext rfq q).items = []) ∧
    (∀ (rfq : RfqIn) (q : JsVal) (l : List LineItemIn), rfq.items = some l →
        ∀ (i : Nat) (it : LineItemIn), l[i]? = some it →
          (negotiateContext rfq q).items[i]?
            = some { line := it.line, description := it.description,
                     grade := it.grade, quantity := it.quantity, uom := it.uom }) := by
  refine ⟨?_, ?_, ?_, ?_⟩
  · intro rfq q li; rfl
  · intro rfq q; exact ⟨rfl, rfl, rfl⟩
  · intro rfq q h; simp [negotiateContext, h]
  · intro rfq q l h i it hit
    simp [negotiateContext, h, List.getElem?_map, hit]

/-- Witness for C5: with the one concrete item under `items`, the context's
first entry copies exactly its directly-named fields. -/
theorem C5_context_contract_witness :
    (negotiateContext
        { id := some (str "I"), rfq_id := none, project_name := none,
          commercial := none, items := some [exItem], line_items := none }
        (.obj [])).items[0]?
      = some { line := none, description := none, grade := none,
               quantity := some (.num 20), uom := none } :=
  C5_context_contract.2.2.2 _ (.obj []) [exItem] rfl 0 exItem rfl

/-- Claim C6.  Whenever either normalization handler succeeds and answers
with an RFQ, the store it returns already holds that RFQ under its id, so
an immediately following `GET /api/rfqs/:id` with the returned id yields
exactly the returned RFQ and the same state. -/
theorem C6_roundtrip :
    (∀ (st : ServerState) (now : Nat) (t : Str) (pn : Option Str)
        (collab : NormCollab) (st2 : ServerState) (rfq : Rfq),
        parseRequestHandler st now (some t) pn collab = (st2, .jsonRfq 200 rfq) →
        getRfqHandler st2 rfq.rfq_id = (st2, .jsonRfq 200 rfq)) ∧
    (∀ (st : ServerState) (now : Nat) (files : List UploadFile) (pn : Option Str)
        (collab : NormCollab) (st2 : ServerState) (rfq : Rfq),
        uploadSpecsHandler st now files pn collab = (st2, .jsonRfq 200 rfq) →
        getRfqHandler st2 rfq.rfq_id = (st2, .jsonRfq 200 rfq)) := by
  constructor
  · intro st now t pn collab st2 rfq h
    by_cases ht : t.isEmpty = true
    · simp [parseRequestHandler, ht, Prod.mk.injEq] at h
    · cases hc : collab (parseRequestUserPrompt t pn) with
      | error e => simp [parseRequestHandler, ht, hc, Prod.mk.injEq] at h
      | ok parsed =>
        simp only [parseRequestHandler, ht, Bool.false_eq_true, if_false, hc,
          Prod.mk.injEq, Response.jsonRfq.injEq, true_and] at h
        obtain ⟨hst, hrfq⟩ := h
        subst hst
        subst hrfq
        exact getRfq_after_set st (genId now) _ rfl
  · intro st now files pn collab st2 rfq h
    by_cases hf : files.isEmpty = true
    · simp [uploadSpecsHandler, hf, Prod.mk.injEq] at h
    · cases hc : parseSpecsToLineItems collab (combinedTextOf files) pn with
      | error e =>
        simp [uploadSpecsHandler, normalizeAndStore, hf, hc, Prod.mk.injEq] at h
      | ok parsed =>
        simp only [uploadSpecsHandler, normalizeAndStore, hf, Bool.false_eq_true,
          if_false, hc, Prod.mk.injEq, Response.jsonRfq.injEq, true_and] at h
        obtain ⟨hst, hrfq⟩ := h
        subst hst
        subst hrfq
        exact getRfq_after_set st (genId now) _ rfl

/-- Witness for C6: one concrete successful parse-request call followed by
the GET returns the very RFQ the call answered with. -/
theorem C6_roundtrip_witness :
    getRfqHandler
        (parseRequestHandler ⟨[], []⟩ 1000 (some (str "x")) none stubCollab).1
        (genId 1000)
      = ((parseRequestHandler ⟨[], []⟩ 1000 (some (str "x")) none stubCollab).1,
         .jsonRfq 200
           { rfq_id := genId 1000, project_name := str "Untitled RFQ",
             line_items := .arr [], original_text := str "x" }) :=
  C6_roundtrip.1 ⟨[], []⟩ 1000 (str "x") none stubCollab _ _ rfl

/-- Claim C7.  On both normalization paths the produced RFQ's project name
follows the precedence "extracted name, else caller-supplied hint, else the
placeholder Untitled RFQ" (a name being present when supplied and
non-empty): the handlers' shared `finalProjectName` expression coincides
with the spec-side `specProjectName`, and each handler's successful answer
carries exactly that name. -/
theorem C7_project_name_precedence :
    (∀ e h : Option Str, finalProjectName e h = specProjectName e h) ∧
    (∀ (st : ServerState) (now : Nat) (t : Str) (pn : Option Str)
        (collab : NormCollab) (parsed : ParsedOut),
        t.isEmpty = false →
        collab (parseRequestUserPrompt t pn) = .ok parsed →
        ((parseRequestHandler st now (some t) pn collab).2.rfq?.map Rfq.project_name)
          = some (specProjectName parsed.project_name pn)) ∧
    (∀ (st : ServerState) (now : Nat) (files : List UploadFile) (pn : Option Str)
        (collab : NormCollab) (parsed : ParsedOut),
        files.isEmpty = false →
        collab (specsUserPrompt (combinedTextOf files) pn) = .ok parsed →
        ((uploadSpecsHandler st now files pn collab).2.rfq?.map Rfq.project_name)
          = some (specProjectName parsed.project_name pn)) := by
  refine ⟨finalProjectName_eq_spec, ?_, ?_⟩
  · intro st now t pn collab parsed ht hc
    simp [parseRequestHandler, ht, hc, Response.rfq?, finalProjectName_eq_spec]
  · intro st now files pn collab parsed hf hc
    simp [uploadSpecsHandler, normalizeAndStore, parseSpecsToLineItems, hf, hc,
      Response.rfq?, finalProjectName_eq_spec]

/-- Witness for C7: a concrete call whose collaborator extracts the name
"Proj" while the caller supplied the hint "Hint" returns "Proj". -/
theorem C7_project_name_precedence_witness :
    ((parseRequestHandler ⟨[], []⟩ 1000 (some (str "x")) (some (str "Hint"))
        stubCollabNamed).2.rfq?.map Rfq.project_name)
      = some (str "Proj") :=
  C7_project_name_precedence.2.1 ⟨[], []⟩ 1000 (str "x") (some (str "Hint"))
    stubCollabNamed ⟨some (str "Proj"), none⟩ rfl rfl

/-- Claim C1, counterexample.  For the 12,001-character text `aa…a` the
prompt the parse-request handler actually submits — which embeds the text
unchanged — differs from the prompt the claim mandates, namely one
embedding the 12,000-character prefix with the truncation marker: the
parse-request path performs no truncation, so the two entry points do not
share the truncation contract. -/
theorem C1_counterexample :
    parseRequestUserPrompt (List.replicate 12001 'a') none
      ≠ parseRequestUserPrompt (truncatedText (List.replicate 12001 'a')) none := by
  intro h
  have ht : (truncatedText (List.replicate 12001 'a')).length = 12013 := by
    unfold truncatedText
    rw [if_pos (by rw [List.length_replicate]; decide)]
    rw [List.length_append, List.length_take, List.length_replicate]
    decide
  have hl := congrArg List.length h
  simp only [parseRequestUserPrompt, List.length_append, List.length_replicate,
    ht] at hl
  omega

/-- Claim C1, amended.  Only the upload-specs path truncates: the
`parseSpecsToLineItems` prompt embeds the 12,000-character prefix with the
`[TRUNCATED]` marker appended when the combined text is longer than 12,000
characters and the text unchanged otherwise, so its prompt size is bounded;
the parse-request prompt embeds the buyer text unchanged whatever its
length — its size grows with the full text and no truncation is applied. -/
theorem C1_truncation_contract :
    (∀ s : Str, MAX_CHARS < s.length →
        truncatedText s = s.take MAX_CHARS ++ str "\n\n[TRUNCATED]") ∧
    (∀ s : Str, s.length ≤ MAX_CHARS → truncatedText s = s) ∧
    (∀ (c : Str) (pn : Option Str),
        (specsUserPrompt c pn).length
          = (specsUserPrompt [] pn).length + (truncatedText c).length) ∧
    (∀ (t : Str) (pn : Option Str),
        (parseRequestUserPrompt t pn).length
          = (parseRequestUserPrompt [] pn).length + t.length) := by
  refine ⟨?_, ?_, ?_, ?_⟩
  · intro s hs
    unfold truncatedText
    rw [if_pos hs]
  · intro s hs
    unfold truncatedText
    rw [if_neg (by omega)]
  · intro c pn
    have h0 : truncatedText [] = [] := by
      simp [truncatedText, MAX_CHARS]
    simp only [specsUserPrompt, List.length_append, h0, List.length_nil]
    omega
  · intro t pn
    simp only [parseRequestUserPrompt, List.length_append, List.length_nil]
    omega

/-- Witness for C1: a short concrete text passes through untruncated. -/
theorem C1_truncation_contract_witness :
    truncatedText (str "hi") = str "hi" :=
  C1_truncation_contract.2.1 (str "hi") (by decide)

/-- Claim C2, counterexample.  Two distinct successful parse-request calls
— they return different RFQs, since their source texts differ — that
observe the same `Date.now()` millisecond value 1000 return RFQs carrying
the same id: the generated ids are not unique across calls. -/
theorem C2_counterexample :
    (parseRequestHandler ⟨[], []⟩ 1000 (some (str "a")) none stubCollab).2.status
        = 200 ∧
    (parseRequestHandler
        (parseRequestHandler ⟨[], []⟩ 1000 (some (str "a")) none stubCollab).1
        1000 (some (str "b")) none stubCollab).2.status = 200 ∧
    (parseRequestHandler ⟨[], []⟩ 1000 (some (str "a")) none stubCollab).2.rfq?
      ≠ (parseRequestHandler
          (parseRequestHandler ⟨[], []⟩ 1000 (some (str "a")) none stubCollab).1
          1000 (some (str "b")) none stubCollab).2.rfq? ∧
    ((parseRequestHandler ⟨[], []⟩ 1000 (some (str "a")) none stubCollab).2.rfq?.map
        Rfq.rfq_id)
      = ((parseRequestHandler
          (parseRequestHandler ⟨[], []⟩ 1000 (some (str "a")) none stubCollab).1
          1000 (some (str "b")) none stubCollab).2.rfq?.map Rfq.rfq_id) := by
  refine ⟨rfl, rfl, ?_, rfl⟩
  intro h
  have h2 := congrArg (fun o => o.map Rfq.original_text) h
  exact absurd h2 (by decide)

/-- Claim C2, amended.  Id uniqueness holds exactly up to the clock: the
ids of two normalization calls observing distinct `Date.now()` values are
distinct (the timestamp is recoverable from the id), while calls sharing a
millisecond produce equal ids — collisions are not guarded. -/
theorem C2_ids_distinct_for_distinct_now :
    (∀ t1 t2 : Nat, t1 ≠ t2 → genId t1 ≠ genId t2) ∧
    (∀ (st1 st2 : ServerState) (now1 now2 : Nat) (t1 t2 : Str)
        (pn1 pn2 : Option Str) (c1 c2 : NormCollab) (r1 r2 : Rfq),
        now1 ≠ now2 →
        (parseRequestHandler st1 now1 (some t1) pn1 c1).2.rfq? = some r1 →
        (parseRequestHandler st2 now2 (some t2) pn2 c2).2.rfq? = some r2 →
        r1.rfq_id ≠ r2.rfq_id) := by
  have base : ∀ t1 t2 : Nat, t1 ≠ t2 → genId t1 ≠ genId t2 := by
    intro t1 t2 hne h
    exact hne (genId_inj h)
  refine ⟨base, ?_⟩
  intro st1 st2 now1 now2 t1 t2 pn1 pn2 c1 c2 r1 r2 hne h1 h2
  rw [parseRequest_rfqId st1 now1 t1 pn1 c1 r1 h1,
    parseRequest_rfqId st2 now2 t2 pn2 c2 r2 h2]
  exact base now1 now2 hne

/-- Witness for C2: two concrete distinct timestamps give distinct ids. -/
theorem C2_ids_distinct_witness : genId 1 ≠ genId 2 :=
  C2_ids_distinct_for_distinct_now.1 1 2 (by decide)

/-- Claim C9.  Per-file extraction failure never aborts the batch: a file
whose extraction throws is skipped, leaving the sibling files' extracted
texts exactly as they would have been; a nonempty upload batch is never
answered with 400; and when no file yields usable text the handler
proceeds to normalize the synthesized per-file "unreadable" fallback batch
(one line per uploaded file) instead of failing the request. -/
theorem C9_extraction_resilience :
    (∀ (before after : List UploadFile) (name e : Str),
        extractedTexts (before ++ ⟨name, .error e⟩ :: after)
          = extractedTexts before ++ extractedTexts after) ∧
    (∀ (st : ServerState) (now : Nat) (files : List UploadFile)
        (pn : Option Str) (collab : NormCollab),
        files.isEmpty = false →
        (uploadSpecsHandler st now files pn collab).2.status ≠ 400) ∧
    (∀ files : List UploadFile, extractedTexts files = [] →
        combinedTextOf files = fallbackText files) ∧
    (∀ (st : ServerState) (now : Nat) (files : List UploadFile)
        (pn : Option Str) (collab : NormCollab),
        files.isEmpty = false → extractedTexts files = [] →
        uploadSpecsHandler st now files pn collab
          = normalizeAndStore st now (fallbackText files) pn collab) := by
  have hcomb : ∀ files : List UploadFile, extractedTexts files = [] →
      combinedTextOf files = fallbackText files := by
    intro files h
    simp [combinedTextOf, h, intercalate_singleton]
  refine ⟨?_, ?_, hcomb, ?_⟩
  · intro before after name e
    simp [extractedTexts, List.filterMap_append, List.filterMap_cons]
  · intro st now files pn collab hf
    rcases hc : parseSpecsToLineItems collab (combinedTextOf files) pn with e | p <;>
      simp [uploadSpecsHandler, normalizeAndStore, hf, hc, Response.status]
  · intro st now files pn collab hf he
    simp [uploadSpecsHandler, hf, hcomb files he]

/-- Witness for C9: a one-file batch whose sole extraction threw is still
normalized — from the synthesized fallback text — rather than rejected. -/
theorem C9_extraction_resilience_witness :
    uploadSpecsHandler ⟨[], []⟩ 1 [⟨str "a.pdf", .error (str "boom")⟩] none stubCollab
      = normalizeAndStore ⟨[], []⟩ 1
          (fallbackText [⟨str "a.pdf", .error (str "boom")⟩]) none stubCollab :=
  C9_extraction_resilience.2.2.2 ⟨[], []⟩ 1 [⟨str "a.pdf", .error (str "boom")⟩]
    none stubCollab rfl rfl

end Crontal
